import Mathlib

/-!
# SmartLight: the serial port service UART header and the WeChat profile header

A verification development over two headers of the DA14580 DSPS firmware:

* `uart_sps.h`: the reserved wire bytes, the flow control switches, the baud
  rate divisors, the character duration and the flow state enumeration;
* `app_wechat.h`: the device information strings and their declared lengths.

Both files consist of preprocessor directives.  A header is embedded as a
function on macro environments: every `#define` and `#undef` is one update of
the environment, every `#if` is an `if` on the environment reached so far.
Replacement lists are stored unexpanded, as the preprocessor stores them, and
are expanded where a macro is used.

The byte stuffing routines themselves live in `uart_sps.c`, which is not part of
the sources at hand; they are modelled from the specification in the section
on the flow control codec.
-/

set_option autoImplicit false

namespace SmartLight

/-! ## Macro environments -/

/-- Object-like macros which `uart_sps.h` defines, undefines or tests. -/
inductive Macro
  | CFG_ROM
  | UART_SPS_BAUDRATE
  | UART_STUFFING_BYTE
  | UART_XON_BYTE
  | UART_XOFF_BYTE
  | UART_SW_FLOW_ENABLED
  | UART_HW_FLOW_ENABLED
  | UART_BYTESTUFFING_ENABLED
  | UART_BAUDRATE_115K2
  | UART_BAUDRATE_57K6
  | UART_BAUDRATE_9K6
  | UART_BAUDRATE_460K8
  | UART_BAUDRATE_921K6
  | UART_BAUDRATE
  | UART_CHAR_DURATION
  deriving DecidableEq, Repr

/-- Replacement lists, in the shapes in which they occur in `uart_sps.h`. -/
inductive Body
  /-- An integer constant, as in `#define UART_BAUDRATE_57K6 17`. -/
  | lit (n : Nat)
  /-- A constant under a cast to `uint8_t`, as in `(uint8_t)0x39`. -/
  | cast8 (n : Nat)
  /-- Another identifier, as in `#define UART_BAUDRATE UART_BAUDRATE_115K2`. -/
  | name (m : Macro)
  /-- An identifier times a constant, as in `(UART_BAUDRATE * 22)`. -/
  | times (m : Macro) (k : Nat)
  deriving DecidableEq, Repr

/-- A macro environment: the replacement list of every macro that is defined. -/
abbrev Env := Macro → Option Body

/-- The environment in which no macro is defined. -/
def emptyEnv : Env := fun _ => none

/-- The directive `#define m b`. -/
def Env.define (env : Env) (m : Macro) (b : Body) : Env :=
  fun x => if x = m then some b else env x

/-- The directive `#undef m`. -/
def Env.undef (env : Env) (m : Macro) : Env :=
  fun x => if x = m then none else env x

/-- Whether `m` is defined, as `#ifdef m` tests it. -/
def Env.defined (env : Env) (m : Macro) : Bool := (env m).isSome

/-- Number of macro names; no chain of replacements is longer, because a macro
is not replaced again inside its own expansion. -/
def expandFuel : Nat := 15

/-- The integer `x` as a signed type of `bits` bits holds it, in two's
complement. -/
def wrapSigned (bits : Nat) (x : Int) : Int :=
  (x + 2 ^ (bits - 1)) % 2 ^ bits - 2 ^ (bits - 1)

/-- The product `v * k` as C computes it for `(UART_BAUDRATE * 22)`.  The
operands are integer constants: they are of type `int` when both fit in 32
bits, of a 64 bit type when both fit in 64 bits, and have no type beyond
that.  The product is taken in that type.  Signed overflow is undefined in C;
the value given is the two's complement one, to which compilers fold the
constant expression. -/
def cTimes (v : Int) (k : Nat) : Option Int :=
  if -2 ^ 31 ≤ v ∧ v < 2 ^ 31 ∧ k < 2 ^ 31 then some (wrapSigned 32 (v * k))
  else if -2 ^ 63 ≤ v ∧ v < 2 ^ 63 ∧ k < 2 ^ 63 then some (wrapSigned 64 (v * k))
  else none

/-- Value of a replacement list in C code.  Identifiers are replaced until none
is left; an identifier that is not a macro is an undeclared name, for which
there is no value. -/
def expandBody (env : Env) : Nat → Body → Option Int
  | _, .lit n => some n
  | _, .cast8 n => some ((n % 2 ^ 8 : Nat) : Int)
  | 0, .name _ => none
  | 0, .times _ _ => none
  | fuel + 1, .name m =>
    match env m with
    | some b => expandBody env fuel b
    | none => none
  | fuel + 1, .times m k =>
    match env m with
    | some b => (expandBody env fuel b).bind (cTimes · k)
    | none => none

/-- Value which the identifier `m` has in C code after the directives that
led to `env`. -/
def cValue (env : Env) (m : Macro) : Option Int :=
  expandBody env expandFuel (.name m)

/-- Value of a replacement list inside the expression of an `#if`: there an
identifier that is left after macro replacement counts as `0`. -/
def ppBody (env : Env) : Nat → Body → Nat
  | _, .lit n => n
  | _, .cast8 n => n % 2 ^ 8
  | 0, .name _ => 0
  | 0, .times _ _ => 0
  | fuel + 1, .name m =>
    match env m with
    | some b => ppBody env fuel b
    | none => 0
  | fuel + 1, .times m k =>
    match env m with
    | some b => ppBody env fuel b * k
    | none => 0

/-- Value of the identifier `m` inside the expression of an `#if`. -/
def ppValue (env : Env) (m : Macro) : Nat :=
  ppBody env expandFuel (.name m)

/-- The test `#if (m)`. -/
def ppTrue (env : Env) (m : Macro) : Bool := ppValue env m != 0

/-! ## `uart_sps.h` -/

/-- Lines 45 to 51: the baud rate of the serial port service and the flow
control bytes. -/
def flowControlBytes (env : Env) : Env :=
  let env := env.define .UART_SPS_BAUDRATE (.name .UART_BAUDRATE_115K2)
  let env := env.define .UART_STUFFING_BYTE (.cast8 0x39)
  let env := env.define .UART_XON_BYTE (.cast8 0x11)
  env.define .UART_XOFF_BYTE (.cast8 0x13)

/-- Lines 53 to 61: the switches for software and hardware flow control and
for byte stuffing.  `sw` and `hw` are the values written on the lines
`#define UART_SW_FLOW_ENABLED` and `#define UART_HW_FLOW_ENABLED`, which the
developer turns on (1) or off (0). -/
def flowControlSwitches (sw hw : Nat) (env : Env) : Env :=
  let env := env.define .UART_SW_FLOW_ENABLED (.lit sw)
  let env := env.define .UART_HW_FLOW_ENABLED (.lit hw)
  if ppTrue env .UART_SW_FLOW_ENABLED then
    let env := env.define .UART_BYTESTUFFING_ENABLED (.lit 0)
    env.undef .UART_HW_FLOW_ENABLED
  else env

/-- Lines 68 to 73: the dividers for 115200, 57600 and 9600 bits/s. -/
def baudDividers (env : Env) : Env :=
  let env := env.define .UART_BAUDRATE_115K2 (.lit 9)
  let env := env.define .UART_BAUDRATE_57K6 (.lit 17)
  env.define .UART_BAUDRATE_9K6 (.lit 104)

/-- Lines 76 to 81: the baud rate used on the UART, chosen by `#ifndef CFG_ROM`. -/
def baudrateUsed (env : Env) : Env :=
  if !env.defined .CFG_ROM then
    env.define .UART_BAUDRATE (.name .UART_BAUDRATE_115K2)
  else
    env.define .UART_BAUDRATE (.name .UART_BAUDRATE_460K8)

/-- Lines 83 to 87: the character duration, chosen by
`#if (UART_BAUDRATE == UART_BAUDRATE_921K6)`. -/
def charDuration (env : Env) : Env :=
  if ppValue env .UART_BAUDRATE == ppValue env .UART_BAUDRATE_921K6 then
    env.define .UART_CHAR_DURATION (.lit 11)
  else
    env.define .UART_CHAR_DURATION (.times .UART_BAUDRATE 22)

/-- The macro definitions of `uart_sps.h`, in the order of the file.  `env0`
holds what was defined before the header is read (build flags such as
`CFG_ROM`, constants of other headers). -/
def uart_sps_h (sw hw : Nat) (env0 : Env) : Env :=
  charDuration (baudrateUsed (baudDividers (flowControlSwitches sw hw (flowControlBytes env0))))

/-- The header as shipped: software flow control 1, hardware flow control 0,
read with nothing defined beforehand (so `CFG_ROM` is not defined). -/
def shipped : Env := uart_sps_h 1 0 emptyEnv

/-- What the header can meet when it is read: `CFG_ROM` defined or not, and
the two dividers which the header uses without defining them, each either
defined by someone else as a number or not defined at all. -/
def outside (cfgRom : Bool) (d460 d921 : Option Nat) : Env
  | .CFG_ROM => if cfgRom then some (.lit 1) else none
  | .UART_BAUDRATE_460K8 => d460.map .lit
  | .UART_BAUDRATE_921K6 => d921.map .lit
  | _ => none

/-- Flow control states: the last enumeration of `uart_sps.h`. -/
inductive FlowState
  /-- Just data sent or received. -/
  | UART_NONE
  | UART_XON
  | UART_XOFF
  deriving DecidableEq, Repr

/-- Enumeration constants of the flow control states, `(uint8_t)0x00`,
`(uint8_t)0x01` and `(uint8_t)0x02`. -/
def FlowState.code : FlowState → Nat
  | .UART_NONE => 0x00 % 2 ^ 8
  | .UART_XON => 0x01 % 2 ^ 8
  | .UART_XOFF => 0x02 % 2 ^ 8

/-! ## Baud rate dividers

The header documents how dividers are calculated:

    baud rate = serial clock frequency / (16*divisor)
    baud rate = 16*10^6 Hertz / (16*104) = ~9600 baud
    divisor = serial clock frequency / (16 * baud rate)
-/

/-- Serial clock frequency of the documented formula, `16*10^6` Hertz. -/
def serialClock : Nat := 16 * 10 ^ 6

/-- Baud rate for which each divider macro stands: from the comments
`Divider for ... bits/s` for the three dividers that the header defines, from
the identifier for the two that it only mentions. -/
def Macro.bitsPerSecond : Macro → Option Nat
  | .UART_BAUDRATE_115K2 => some 115200
  | .UART_BAUDRATE_57K6 => some 57600
  | .UART_BAUDRATE_9K6 => some 9600
  | .UART_BAUDRATE_460K8 => some 460800
  | .UART_BAUDRATE_921K6 => some 921600
  | _ => none

/-- The five divider macros which the header mentions. -/
def dividerMacros : List Macro :=
  [.UART_BAUDRATE_115K2, .UART_BAUDRATE_57K6, .UART_BAUDRATE_9K6,
   .UART_BAUDRATE_460K8, .UART_BAUDRATE_921K6]

/-- The documented quotient `serial clock frequency / (16 * baud rate)`, taken
to the nearest integer. -/
def nearestDivisor (clock baud : Nat) : Nat :=
  (2 * clock + 16 * baud) / (2 * (16 * baud))

/-- Distance between `clock` and `16 * baud * d`, that is, the distance between
the exact quotient `clock / (16 * baud)` and `d`, in units of `1 / (16 * baud)`. -/
def divisorError (clock baud d : Nat) : Nat :=
  if 16 * baud * d ≤ clock then clock - 16 * baud * d else 16 * baud * d - clock

/-! ## Flow control codec

The routines that stuff and unstuff bytes are in `uart_sps.c`.  The header only
fixes the three reserved bytes; the codec below follows the specification. -/

/-- The stuffing byte, as C code reads `UART_STUFFING_BYTE`. -/
def stuffingByte : Nat := ((cValue shipped .UART_STUFFING_BYTE).getD 0).toNat

/-- The XON byte, as C code reads `UART_XON_BYTE`. -/
def xonByte : Nat := ((cValue shipped .UART_XON_BYTE).getD 0).toNat

/-- The XOFF byte, as C code reads `UART_XOFF_BYTE`. -/
def xoffByte : Nat := ((cValue shipped .UART_XOFF_BYTE).getD 0).toNat

/-- Modelled from the spec: the encoder of `uart_sps.c`, which is missing from
the sources.  Given a raw data byte, if it equals the stuffing byte, the XON
byte or the XOFF byte, emit the stuffing byte followed by the data byte;
otherwise emit the data byte unchanged.  The codec is active only when
software flow control is selected (`swFlow`). -/
def encodeByte (swFlow : Bool) (b : Nat) : List Nat :=
  if swFlow && (b == stuffingByte || b == xonByte || b == xoffByte) then
    [stuffingByte, b]
  else
    [b]

/-- Modelled from the spec: the wire image of a write buffer, which
`uart_sps.c` (missing from the sources) sends byte by byte. -/
def encode (swFlow : Bool) : List Nat → List Nat
  | [] => []
  | b :: bs => encodeByte swFlow b ++ encode swFlow bs

/-- What the receiver makes of one wire byte. -/
inductive WireEvent
  /-- A data byte, delivered to the buffer. -/
  | data (b : Nat)
  /-- A flow control signal, which updates the flow state. -/
  | signal (s : FlowState)
  /-- A stuffing marker: the next wire byte is a literal. -/
  | marker
  deriving DecidableEq, Repr

/-- Modelled from the spec: the decoder of `uart_sps.c`, which is missing from
the sources.  Consume one wire byte; if it equals the stuffing byte, the next
wire byte is an escaped literal data byte (emitted unchanged, regardless of
its value); if it equals XON or XOFF and was not preceded by a stuffing byte,
it is a flow control signal and not data; otherwise it is a literal data byte.
When hardware flow control is selected (`swFlow` false) all wire bytes are
literal data.  `escaped` says that the byte before was a stuffing marker; the
result is the new value of `escaped` and the event. -/
def decodeByte (swFlow escaped : Bool) (w : Nat) : Bool × WireEvent :=
  if !swFlow then (false, .data w)
  else if escaped then (false, .data w)
  else if w == stuffingByte then (true, .marker)
  else if w == xonByte then (false, .signal .UART_XON)
  else if w == xoffByte then (false, .signal .UART_XOFF)
  else (false, .data w)

/-- Modelled from the spec: the events of a whole wire sequence, decoded byte by
byte as `uart_sps.c` (missing from the sources) does on each receive interrupt. -/
def decodeFrom (swFlow : Bool) : Bool → List Nat → List WireEvent
  | _, [] => []
  | escaped, w :: ws =>
    (decodeByte swFlow escaped w).2 :: decodeFrom swFlow (decodeByte swFlow escaped w).1 ws

/-- Data bytes among the events, in order: what reaches the read buffer. -/
def dataBytes : List WireEvent → List Nat
  | [] => []
  | .data b :: es => b :: dataBytes es
  | _ :: es => dataBytes es

/-- Flow control signals among the events, in order. -/
def flowSignals : List WireEvent → List FlowState
  | [] => []
  | .signal s :: es => s :: flowSignals es
  | _ :: es => flowSignals es

/-- Modelled from the spec: the data which a receiver reconstructs from a wire
sequence, starting with no stuffing marker pending. -/
def decode (swFlow : Bool) (wire : List Nat) : List Nat :=
  dataBytes (decodeFrom swFlow false wire)

/-! ## `app_wechat.h` -/

/-- Value of a hexadecimal digit. -/
def hexDigit (c : Char) : Option Nat :=
  if '0' ≤ c ∧ c ≤ '9' then some (c.toNat - '0'.toNat)
  else if 'a' ≤ c ∧ c ≤ 'f' then some (c.toNat - 'a'.toNat + 10)
  else if 'A' ≤ c ∧ c ≤ 'F' then some (c.toNat - 'A'.toNat + 10)
  else none

/-- Where the reader of a C string literal stands. -/
inductive LitMode
  /-- Between characters. -/
  | plain
  /-- After a backslash. -/
  | escape
  /-- Inside a hexadecimal escape sequence with the value read so far. -/
  | hex (v : Nat)
  deriving DecidableEq, Repr

/-- One character of the text of a C string literal: the new mode and the
bytes that are complete.  A hexadecimal escape sequence takes all hexadecimal
digits that follow `\x`; of the simple escape sequences only those for a
character itself (such as `\\`) are read, which is all that the literals of
`app_wechat.h` need. -/
def litStep (mode : LitMode) (c : Char) : LitMode × List Nat :=
  match mode with
  | .plain => if c = '\\' then (.escape, []) else (.plain, [c.toNat])
  | .escape => if c = 'x' then (.hex 0, []) else (.plain, [c.toNat])
  | .hex v =>
    match hexDigit c with
    | some d => (.hex (16 * v + d), [])
    | none => if c = '\\' then (.escape, [v % 2 ^ 8]) else (.plain, [v % 2 ^ 8, c.toNat])

/-- Bytes of a C string literal, from the text between its quotes and without
the terminating null character. -/
def litBytes : LitMode → List Char → List Nat
  | .hex v, [] => [v % 2 ^ 8]
  | _, [] => []
  | mode, c :: cs => (litStep mode c).2 ++ litBytes (litStep mode c).1 cs

/-- Bytes of the C string literal with text `s`. -/
def cStringBytes (s : String) : List Nat := litBytes .plain s.toList

/-- The string macros of `app_wechat.h` and their declared lengths.  A string
field holds the text between the quotes of the literal. -/
structure DeviceInformation where
  APP_WECHAT_MANUFACTURER_NAME : String
  APP_WECHAT_MANUFACTURER_NAME_LEN : Nat
  APP_WECHAT_MODEL_NB_STR : String
  APP_WECHAT_MODEL_NB_STR_LEN : Nat
  APP_WECHAT_SYSTEM_ID : String
  APP_WECHAT_SYSTEM_ID_LEN : Nat
  deriving DecidableEq, Repr

/-- Limit written next to the manufacturer name and the model number string:
`up to 18 chars`. -/
def maxNameChars : Nat := 18

/-- The string macros which `app_wechat.h` defines.  They stand under
`#if (BLE_WECHAT_SERVER)` and `#if (BLE_APP_PRESENT)`; both switches come from
`rwip_config.h` and are taken as parameters.  Without the server nothing is
defined, without the application only `APP_WECHAT_FEATURES`. -/
def app_wechat_h (BLE_WECHAT_SERVER BLE_APP_PRESENT : Nat) : Option DeviceInformation :=
  if BLE_WECHAT_SERVER != 0 then
    if BLE_APP_PRESENT != 0 then
      some {
        APP_WECHAT_MANUFACTURER_NAME := "Dialog Semi"
        APP_WECHAT_MANUFACTURER_NAME_LEN := 11
        APP_WECHAT_MODEL_NB_STR := "DA14580"
        APP_WECHAT_MODEL_NB_STR_LEN := 7
        APP_WECHAT_SYSTEM_ID := "\\x12\\x34\\x56\\xFF\\xFE\\x9A\\xBC\\xDE"
        APP_WECHAT_SYSTEM_ID_LEN := 8 }
    else none
  else none

/-! ## Looking up macros after each block of `uart_sps.h` -/

theorem flowControlBytes_other (env : Env) (m : Macro)
    (h1 : m ≠ .UART_SPS_BAUDRATE) (h2 : m ≠ .UART_STUFFING_BYTE)
    (h3 : m ≠ .UART_XON_BYTE) (h4 : m ≠ .UART_XOFF_BYTE) :
    flowControlBytes env m = env m := by
  simp [flowControlBytes, Env.define, h1, h2, h3, h4]

theorem flowControlSwitches_other (sw hw : Nat) (env : Env) (m : Macro)
    (h1 : m ≠ .UART_SW_FLOW_ENABLED) (h2 : m ≠ .UART_HW_FLOW_ENABLED)
    (h3 : m ≠ .UART_BYTESTUFFING_ENABLED) :
    flowControlSwitches sw hw env m = env m := by
  unfold flowControlSwitches
  split <;> simp [Env.define, Env.undef, h1, h2, h3]

theorem baudDividers_other (env : Env) (m : Macro)
    (h1 : m ≠ .UART_BAUDRATE_115K2) (h2 : m ≠ .UART_BAUDRATE_57K6)
    (h3 : m ≠ .UART_BAUDRATE_9K6) :
    baudDividers env m = env m := by
  simp [baudDividers, Env.define, h1, h2, h3]

theorem baudrateUsed_other (env : Env) (m : Macro) (h : m ≠ .UART_BAUDRATE) :
    baudrateUsed env m = env m := by
  unfold baudrateUsed
  split <;> simp [Env.define, h]

theorem charDuration_other (env : Env) (m : Macro) (h : m ≠ .UART_CHAR_DURATION) :
    charDuration env m = env m := by
  unfold charDuration
  split <;> simp [Env.define, h]

/-- The test of `#if (UART_SW_FLOW_ENABLED)` sees the value just written. -/
theorem ppTrue_sw (sw hw : Nat) (env : Env) :
    ppTrue ((env.define .UART_SW_FLOW_ENABLED (.lit sw)).define .UART_HW_FLOW_ENABLED (.lit hw))
      .UART_SW_FLOW_ENABLED = (sw != 0) := by
  simp [ppTrue, ppValue, expandFuel, ppBody, Env.define]

theorem header_stuffing (sw hw : Nat) (env0 : Env) :
    uart_sps_h sw hw env0 .UART_STUFFING_BYTE = some (.cast8 0x39) := by
  unfold uart_sps_h
  rw [charDuration_other _ _ (by decide), baudrateUsed_other _ _ (by decide),
    baudDividers_other _ _ (by decide) (by decide) (by decide),
    flowControlSwitches_other _ _ _ _ (by decide) (by decide) (by decide)]
  simp [flowControlBytes, Env.define]

theorem header_xon (sw hw : Nat) (env0 : Env) :
    uart_sps_h sw hw env0 .UART_XON_BYTE = some (.cast8 0x11) := by
  unfold uart_sps_h
  rw [charDuration_other _ _ (by decide), baudrateUsed_other _ _ (by decide),
    baudDividers_other _ _ (by decide) (by decide) (by decide),
    flowControlSwitches_other _ _ _ _ (by decide) (by decide) (by decide)]
  simp [flowControlBytes, Env.define]

theorem header_xoff (sw hw : Nat) (env0 : Env) :
    uart_sps_h sw hw env0 .UART_XOFF_BYTE = some (.cast8 0x13) := by
  unfold uart_sps_h
  rw [charDuration_other _ _ (by decide), baudrateUsed_other _ _ (by decide),
    baudDividers_other _ _ (by decide) (by decide) (by decide),
    flowControlSwitches_other _ _ _ _ (by decide) (by decide) (by decide)]
  simp [flowControlBytes, Env.define]

theorem header_sw (sw hw : Nat) (env0 : Env) :
    uart_sps_h sw hw env0 .UART_SW_FLOW_ENABLED = some (.lit sw) := by
  unfold uart_sps_h
  rw [charDuration_other _ _ (by decide), baudrateUsed_other _ _ (by decide),
    baudDividers_other _ _ (by decide) (by decide) (by decide)]
  unfold flowControlSwitches
  split <;> simp [Env.define, Env.undef]

theorem header_hw (sw hw : Nat) (env0 : Env) :
    uart_sps_h sw hw env0 .UART_HW_FLOW_ENABLED = if sw = 0 then some (.lit hw) else none := by
  unfold uart_sps_h
  rw [charDuration_other _ _ (by decide), baudrateUsed_other _ _ (by decide),
    baudDividers_other _ _ (by decide) (by decide) (by decide)]
  unfold flowControlSwitches
  simp only [ppTrue_sw]
  by_cases h : sw = 0 <;> simp [Env.define, Env.undef, h]

theorem header_bytestuffing (sw hw : Nat) (env0 : Env) :
    uart_sps_h sw hw env0 .UART_BYTESTUFFING_ENABLED =
      if sw = 0 then env0 .UART_BYTESTUFFING_ENABLED else some (.lit 0) := by
  unfold uart_sps_h
  rw [charDuration_other _ _ (by decide), baudrateUsed_other _ _ (by decide),
    baudDividers_other _ _ (by decide) (by decide) (by decide)]
  unfold flowControlSwitches
  simp only [ppTrue_sw]
  by_cases h : sw = 0 <;> simp [Env.define, Env.undef, h, flowControlBytes]

theorem header_115K2 (sw hw : Nat) (env0 : Env) :
    uart_sps_h sw hw env0 .UART_BAUDRATE_115K2 = some (.lit 9) := by
  unfold uart_sps_h
  rw [charDuration_other _ _ (by decide), baudrateUsed_other _ _ (by decide)]
  simp [baudDividers, Env.define]

theorem header_57K6 (sw hw : Nat) (env0 : Env) :
    uart_sps_h sw hw env0 .UART_BAUDRATE_57K6 = some (.lit 17) := by
  unfold uart_sps_h
  rw [charDuration_other _ _ (by decide), baudrateUsed_other _ _ (by decide)]
  simp [baudDividers, Env.define]

theorem header_9K6 (sw hw : Nat) (env0 : Env) :
    uart_sps_h sw hw env0 .UART_BAUDRATE_9K6 = some (.lit 104) := by
  unfold uart_sps_h
  rw [charDuration_other _ _ (by decide), baudrateUsed_other _ _ (by decide)]
  simp [baudDividers, Env.define]

/-- The header passes on what it does not define itself. -/
theorem header_untouched (sw hw : Nat) (env0 : Env) (m : Macro)
    (h : m = .CFG_ROM ∨ m = .UART_BAUDRATE_460K8 ∨ m = .UART_BAUDRATE_921K6) :
    uart_sps_h sw hw env0 m = env0 m := by
  unfold uart_sps_h
  rcases h with h | h | h <;> subst h <;>
    rw [charDuration_other _ _ (by decide), baudrateUsed_other _ _ (by decide),
      baudDividers_other _ _ (by decide) (by decide) (by decide),
      flowControlSwitches_other _ _ _ _ (by decide) (by decide) (by decide),
      flowControlBytes_other _ _ (by decide) (by decide) (by decide) (by decide)]

theorem cValue_lit (env : Env) (m : Macro) (n : Nat) (h : env m = some (.lit n)) :
    cValue env m = some n := by
  simp [cValue, expandFuel, expandBody, h]

theorem cValue_cast8 (env : Env) (m : Macro) (n : Nat) (h : env m = some (.cast8 n)) :
    cValue env m = some ((n % 2 ^ 8 : Nat) : Int) := by
  simp [cValue, expandFuel, expandBody, h]

theorem ppValue_lit (env : Env) (m : Macro) (n : Nat) (h : env m = some (.lit n)) :
    ppValue env m = n := by
  simp [ppValue, expandFuel, ppBody, h]

theorem ppValue_undefined (env : Env) (m : Macro) (h : env m = none) :
    ppValue env m = 0 := by
  simp [ppValue, expandFuel, ppBody, h]

/-! ## The reserved bytes, the switches and the dividers -/

/-- C4: whatever the switches and whatever was defined before, `uart_sps.h`
gives the stuffing byte the value 0x39, the XON byte 0x11 and the XOFF byte
0x13; each fits in 8 bits, the three are pairwise distinct, and these are the
bytes which the codec uses. -/
theorem C4_reserved_wire_bytes (sw hw : Nat) (env0 : Env) :
    cValue (uart_sps_h sw hw env0) .UART_STUFFING_BYTE = some 0x39 ∧
    cValue (uart_sps_h sw hw env0) .UART_XON_BYTE = some 0x11 ∧
    cValue (uart_sps_h sw hw env0) .UART_XOFF_BYTE = some 0x13 ∧
    stuffingByte = 0x39 ∧ xonByte = 0x11 ∧ xoffByte = 0x13 ∧
    stuffingByte < 2 ^ 8 ∧ xonByte < 2 ^ 8 ∧ xoffByte < 2 ^ 8 ∧
    stuffingByte ≠ xonByte ∧ stuffingByte ≠ xoffByte ∧ xonByte ≠ xoffByte := by
  refine ⟨?_, ?_, ?_, by decide, by decide, by decide, by decide, by decide, by decide,
    by decide, by decide, by decide⟩
  · exact (cValue_cast8 _ _ _ (header_stuffing sw hw env0)).trans (by decide)
  · exact (cValue_cast8 _ _ _ (header_xon sw hw env0)).trans (by decide)
  · exact (cValue_cast8 _ _ _ (header_xoff sw hw env0)).trans (by decide)

/-- C3, as the claim states it, fails for the shipped header: software flow
control is selected there, and the byte stuffing flag is zero. -/
theorem C3_counterexample :
    ¬ (ppValue shipped .UART_SW_FLOW_ENABLED ≠ 0 →
        ppValue shipped .UART_BYTESTUFFING_ENABLED ≠ 0) := by
  decide

/-- C3, amended: whenever `UART_SW_FLOW_ENABLED` is non-zero the header defines
`UART_BYTESTUFFING_ENABLED`, and it defines it as 0, so that the flag reads as
0 in C code and as false in an `#if`. -/
theorem C3_bytestuffing_flag_is_zero (sw hw : Nat) (env0 : Env) (h : sw ≠ 0) :
    (uart_sps_h sw hw env0).defined .UART_BYTESTUFFING_ENABLED = true ∧
    cValue (uart_sps_h sw hw env0) .UART_BYTESTUFFING_ENABLED = some 0 ∧
    ppTrue (uart_sps_h sw hw env0) .UART_BYTESTUFFING_ENABLED = false := by
  have hb : uart_sps_h sw hw env0 .UART_BYTESTUFFING_ENABLED = some (.lit 0) := by
    rw [header_bytestuffing, if_neg h]
  refine ⟨by simp [Env.defined, hb], cValue_lit _ _ _ hb, ?_⟩
  simp [ppTrue, ppValue_lit _ _ _ hb]

/-- C3, amended, at the shipped setting `UART_SW_FLOW_ENABLED = 1`. -/
theorem C3_bytestuffing_flag_is_zero_witness :
    (1 : Nat) ≠ 0 ∧
    (uart_sps_h 1 0 emptyEnv).defined .UART_BYTESTUFFING_ENABLED = true ∧
    cValue (uart_sps_h 1 0 emptyEnv) .UART_BYTESTUFFING_ENABLED = some 0 ∧
    ppTrue (uart_sps_h 1 0 emptyEnv) .UART_BYTESTUFFING_ENABLED = false :=
  ⟨by decide, C3_bytestuffing_flag_is_zero 1 0 emptyEnv (by decide)⟩

/-- C7: for every setting of the two switches and whatever was defined before,
after the header the tests `#if (UART_SW_FLOW_ENABLED)` and
`#if (UART_HW_FLOW_ENABLED)` are never both true; and whenever
`UART_SW_FLOW_ENABLED` is non-zero, `UART_HW_FLOW_ENABLED` is not defined. -/
theorem C7_flow_control_exclusive (sw hw : Nat) (env0 : Env) :
    ¬ (ppTrue (uart_sps_h sw hw env0) .UART_SW_FLOW_ENABLED = true ∧
        ppTrue (uart_sps_h sw hw env0) .UART_HW_FLOW_ENABLED = true) ∧
    (sw ≠ 0 → (uart_sps_h sw hw env0).defined .UART_HW_FLOW_ENABLED = false) := by
  have hs := header_sw sw hw env0
  have hh := header_hw sw hw env0
  by_cases h : sw = 0
  · subst h
    simp [ppTrue, ppValue_lit _ _ _ hs]
  · rw [if_neg h] at hh
    simp [ppTrue, ppValue_undefined _ _ hh, Env.defined, hh]

/-- C7 at the shipped switches, and with both switches turned on. -/
theorem C7_flow_control_exclusive_witness :
    (shipped.defined .UART_HW_FLOW_ENABLED = false) ∧
    ¬ (ppTrue (uart_sps_h 1 1 emptyEnv) .UART_SW_FLOW_ENABLED = true ∧
        ppTrue (uart_sps_h 1 1 emptyEnv) .UART_HW_FLOW_ENABLED = true) :=
  ⟨(C7_flow_control_exclusive 1 0 emptyEnv).2 (by decide),
   (C7_flow_control_exclusive 1 1 emptyEnv).1⟩

/-- C5: the three dividers which the header defines are 9, 17 and 104, and each
is the documented quotient `serial clock / (16 * baud rate)` at 16 MHz taken to
the nearest integer: it is what rounding gives, and no integer is closer to
the exact quotient. -/
theorem C5_dividers_follow_formula (sw hw : Nat) (env0 : Env) :
    (cValue (uart_sps_h sw hw env0) .UART_BAUDRATE_115K2 = some 9 ∧
      Macro.bitsPerSecond .UART_BAUDRATE_115K2 = some 115200 ∧
      nearestDivisor serialClock 115200 = 9 ∧
      ∀ k, divisorError serialClock 115200 9 ≤ divisorError serialClock 115200 k) ∧
    (cValue (uart_sps_h sw hw env0) .UART_BAUDRATE_57K6 = some 17 ∧
      Macro.bitsPerSecond .UART_BAUDRATE_57K6 = some 57600 ∧
      nearestDivisor serialClock 57600 = 17 ∧
      ∀ k, divisorError serialClock 57600 17 ≤ divisorError serialClock 57600 k) ∧
    (cValue (uart_sps_h sw hw env0) .UART_BAUDRATE_9K6 = some 104 ∧
      Macro.bitsPerSecond .UART_BAUDRATE_9K6 = some 9600 ∧
      nearestDivisor serialClock 9600 = 104 ∧
      ∀ k, divisorError serialClock 9600 104 ≤ divisorError serialClock 9600 k) := by
  refine ⟨⟨cValue_lit _ _ _ (header_115K2 sw hw env0), rfl, by decide, ?_⟩,
    ⟨cValue_lit _ _ _ (header_57K6 sw hw env0), rfl, by decide, ?_⟩,
    ⟨cValue_lit _ _ _ (header_9K6 sw hw env0), rfl, by decide, ?_⟩⟩
  all_goals
    intro k
    simp only [divisorError, serialClock]
    split_ifs <;> omega

/-- C6, as the claim states it, fails: the shipped header does not define a
divider for each of the five rates. -/
theorem C6_counterexample :
    ¬ (∀ r ∈ [9600, 57600, 115200, 460800, 921600],
        ∃ m ∈ dividerMacros, m.bitsPerSecond = some r ∧ shipped.defined m = true) := by
  decide

/-- C6, amended: read on its own, the header defines a divider for a rate
exactly when the rate is 9600, 57600 or 115200; and whatever was defined
before, it leaves `UART_BAUDRATE_460K8` and `UART_BAUDRATE_921K6` as it found
them. -/
theorem C6_dividers_defined (sw hw : Nat) (env0 : Env) (r : Nat) :
    ((∃ m ∈ dividerMacros, m.bitsPerSecond = some r ∧
        (uart_sps_h sw hw emptyEnv).defined m = true) ↔ r ∈ [9600, 57600, 115200]) ∧
    uart_sps_h sw hw env0 .UART_BAUDRATE_460K8 = env0 .UART_BAUDRATE_460K8 ∧
    uart_sps_h sw hw env0 .UART_BAUDRATE_921K6 = env0 .UART_BAUDRATE_921K6 := by
  refine ⟨?_, header_untouched _ _ _ _ (by simp), header_untouched _ _ _ _ (by simp)⟩
  have h1 := header_115K2 sw hw emptyEnv
  have h2 := header_57K6 sw hw emptyEnv
  have h3 := header_9K6 sw hw emptyEnv
  have h4 : uart_sps_h sw hw emptyEnv .UART_BAUDRATE_460K8 = none :=
    header_untouched _ _ _ _ (by simp)
  have h5 : uart_sps_h sw hw emptyEnv .UART_BAUDRATE_921K6 = none :=
    header_untouched _ _ _ _ (by simp)
  simp only [dividerMacros, Env.defined, List.mem_cons, List.mem_singleton, exists_eq_or_imp,
    exists_eq_left, Macro.bitsPerSecond, h1, h2, h3, h4, h5, List.not_mem_nil, false_and,
    exists_false, or_false]
  simp only [Option.some.injEq, Option.isSome_some, Option.isSome_none, and_true]
  constructor
  · rintro (h | h | h | h | h) <;> simp_all
  · rintro (h | h | h | h) <;> simp_all

/-- C8: the flow control states are UART_NONE, UART_XON and UART_XOFF and no
other, with the codes 0x00, 0x01 and 0x02; the codes are pairwise distinct,
and no code equals a reserved wire byte, so the code of XON is not the XON
byte and the code of XOFF is not the XOFF byte. -/
theorem C8_flow_state_codes (s : FlowState) :
    FlowState.code .UART_NONE = 0x00 ∧ FlowState.code .UART_XON = 0x01 ∧
    FlowState.code .UART_XOFF = 0x02 ∧
    (s = .UART_NONE ∨ s = .UART_XON ∨ s = .UART_XOFF) ∧
    FlowState.code .UART_NONE ≠ FlowState.code .UART_XON ∧
    FlowState.code .UART_NONE ≠ FlowState.code .UART_XOFF ∧
    FlowState.code .UART_XON ≠ FlowState.code .UART_XOFF ∧
    FlowState.code .UART_XON ≠ xonByte ∧ FlowState.code .UART_XOFF ≠ xoffByte ∧
    s.code ≠ stuffingByte ∧ s.code ≠ xonByte ∧ s.code ≠ xoffByte := by
  cases s <;> decide

/-! ## The character duration -/

theorem cValue_name_lit (env : Env) (m m1 : Macro) (n : Nat)
    (h : env m = some (.name m1)) (h1 : env m1 = some (.lit n)) :
    cValue env m = some n := by
  simp [cValue, expandFuel, expandBody, h, h1]

theorem cValue_name_undefined (env : Env) (m m1 : Macro)
    (h : env m = some (.name m1)) (h1 : env m1 = none) :
    cValue env m = none := by
  simp [cValue, expandFuel, expandBody, h, h1]

theorem cValue_times_name_lit (env : Env) (m m1 m2 : Macro) (k n : Nat)
    (h : env m = some (.times m1 k)) (h1 : env m1 = some (.name m2))
    (h2 : env m2 = some (.lit n)) :
    cValue env m = cTimes n k := by
  unfold cValue expandFuel
  rw [expandBody, h]
  simp only []
  rw [expandBody, h1]
  simp only []
  rw [expandBody, h2]
  simp only []
  rw [expandBody, Option.some_bind]

theorem cValue_times_name_undefined (env : Env) (m m1 m2 : Macro) (k : Nat)
    (h : env m = some (.times m1 k)) (h1 : env m1 = some (.name m2))
    (h2 : env m2 = none) :
    cValue env m = none := by
  simp [cValue, expandFuel, expandBody, h, h1, h2]

theorem ppValue_name_lit (env : Env) (m m1 : Macro) (n : Nat)
    (h : env m = some (.name m1)) (h1 : env m1 = some (.lit n)) :
    ppValue env m = n := by
  simp [ppValue, expandFuel, ppBody, h, h1]

theorem ppValue_name_undefined (env : Env) (m m1 : Macro)
    (h : env m = some (.name m1)) (h1 : env m1 = none) :
    ppValue env m = 0 := by
  simp [ppValue, expandFuel, ppBody, h, h1]

/-- The macros which `#ifndef CFG_ROM` and the `#if` of the character duration
read, in the environment in which they are read. -/
theorem before_baudrateUsed (sw hw : Nat) (env0 : Env) (m : Macro)
    (h : m = .CFG_ROM ∨ m = .UART_BAUDRATE_460K8 ∨ m = .UART_BAUDRATE_921K6) :
    baudDividers (flowControlSwitches sw hw (flowControlBytes env0)) m = env0 m := by
  rcases h with h | h | h <;> subst h <;>
    rw [baudDividers_other _ _ (by decide) (by decide) (by decide),
      flowControlSwitches_other _ _ _ _ (by decide) (by decide) (by decide),
      flowControlBytes_other _ _ (by decide) (by decide) (by decide) (by decide)]

theorem before_baudrateUsed_115K2 (sw hw : Nat) (env0 : Env) :
    baudDividers (flowControlSwitches sw hw (flowControlBytes env0)) .UART_BAUDRATE_115K2 =
      some (.lit 9) := by
  simp [baudDividers, Env.define]

/-- The baud rate used on the UART: the divider for 115200 bits/s, or under
`CFG_ROM` the one for 460800 bits/s. -/
theorem header_baudrate (sw hw : Nat) (cfgRom : Bool) (d460 d921 : Option Nat) :
    uart_sps_h sw hw (outside cfgRom d460 d921) .UART_BAUDRATE =
      some (.name (if cfgRom then .UART_BAUDRATE_460K8 else .UART_BAUDRATE_115K2)) := by
  unfold uart_sps_h
  rw [charDuration_other _ _ (by decide)]
  unfold baudrateUsed
  rw [Env.defined, before_baudrateUsed _ _ _ _ (by simp)]
  cases cfgRom <;> simp [outside, Env.define]

theorem header_char_duration (sw hw : Nat) (cfgRom : Bool) (d460 d921 : Option Nat) :
    uart_sps_h sw hw (outside cfgRom d460 d921) .UART_CHAR_DURATION =
      if (if cfgRom then d460.getD 0 else 9) = d921.getD 0 then some (.lit 11)
      else some (.times .UART_BAUDRATE 22) := by
  have hb : ppValue (baudrateUsed (baudDividers (flowControlSwitches sw hw
      (flowControlBytes (outside cfgRom d460 d921))))) .UART_BAUDRATE =
      if cfgRom then d460.getD 0 else 9 := by
    have hrom := before_baudrateUsed sw hw (outside cfgRom d460 d921) .CFG_ROM (by simp)
    have h460 := before_baudrateUsed sw hw (outside cfgRom d460 d921) .UART_BAUDRATE_460K8
      (by simp)
    have h115 := before_baudrateUsed_115K2 sw hw (outside cfgRom d460 d921)
    cases cfgRom
    · refine ppValue_name_lit _ _ .UART_BAUDRATE_115K2 _ ?_ ?_
      · simp [baudrateUsed, Env.defined, hrom, outside, Env.define]
      · rw [baudrateUsed_other _ _ (by decide)]
        exact h115
    · cases d460 with
      | none =>
        refine ppValue_name_undefined _ _ .UART_BAUDRATE_460K8 ?_ ?_
        · simp [baudrateUsed, Env.defined, hrom, outside, Env.define]
        · rw [baudrateUsed_other _ _ (by decide), h460]
          rfl
      | some d =>
        refine ppValue_name_lit _ _ .UART_BAUDRATE_460K8 _ ?_ ?_
        · simp [baudrateUsed, Env.defined, hrom, outside, Env.define]
        · rw [baudrateUsed_other _ _ (by decide), h460]
          rfl
  have h9 : ppValue (baudrateUsed (baudDividers (flowControlSwitches sw hw
      (flowControlBytes (outside cfgRom d460 d921))))) .UART_BAUDRATE_921K6 =
      d921.getD 0 := by
    have h921 := before_baudrateUsed sw hw (outside cfgRom d460 d921) .UART_BAUDRATE_921K6
      (by simp)
    cases d921 with
    | none =>
      refine ppValue_undefined _ _ ?_
      rw [baudrateUsed_other _ _ (by decide), h921]
      rfl
    | some d =>
      refine ppValue_lit _ _ _ ?_
      rw [baudrateUsed_other _ _ (by decide), h921]
      rfl
  unfold uart_sps_h charDuration
  rw [hb, h9]
  by_cases h : (if cfgRom then d460.getD 0 else 9) = d921.getD 0 <;> simp [h, Env.define]

/-- Value of `UART_BAUDRATE` in C code. -/
theorem cValue_baudrate (sw hw : Nat) (cfgRom : Bool) (d460 d921 : Option Nat) :
    cValue (uart_sps_h sw hw (outside cfgRom d460 d921)) .UART_BAUDRATE =
      if cfgRom then d460.map Nat.cast else some 9 := by
  have hb := header_baudrate sw hw cfgRom d460 d921
  have h460 := header_untouched sw hw (outside cfgRom d460 d921) .UART_BAUDRATE_460K8 (by simp)
  cases cfgRom
  · exact cValue_name_lit _ _ _ _ hb (header_115K2 _ _ _)
  · cases d460 with
    | none => exact cValue_name_undefined _ _ _ hb (h460.trans rfl)
    | some d => exact cValue_name_lit _ _ _ _ hb (h460.trans rfl)

/-- Value of `UART_BAUDRATE` inside an `#if` after the header. -/
theorem ppValue_baudrate (sw hw : Nat) (cfgRom : Bool) (d460 d921 : Option Nat) :
    ppValue (uart_sps_h sw hw (outside cfgRom d460 d921)) .UART_BAUDRATE =
      if cfgRom then d460.getD 0 else 9 := by
  have hb := header_baudrate sw hw cfgRom d460 d921
  have h460 := header_untouched sw hw (outside cfgRom d460 d921) .UART_BAUDRATE_460K8 (by simp)
  cases cfgRom
  · exact ppValue_name_lit _ _ _ _ hb (header_115K2 _ _ _)
  · cases d460 with
    | none => exact ppValue_name_undefined _ _ _ hb (h460.trans rfl)
    | some d => exact ppValue_name_lit _ _ _ _ hb (h460.trans rfl)

/-- Value of `UART_BAUDRATE_921K6` inside an `#if` after the header. -/
theorem ppValue_921K6 (sw hw : Nat) (cfgRom : Bool) (d460 d921 : Option Nat) :
    ppValue (uart_sps_h sw hw (outside cfgRom d460 d921)) .UART_BAUDRATE_921K6 =
      d921.getD 0 := by
  have h921 := header_untouched sw hw (outside cfgRom d460 d921) .UART_BAUDRATE_921K6 (by simp)
  cases d921 with
  | none => exact ppValue_undefined _ _ (h921.trans rfl)
  | some d => exact ppValue_lit _ _ _ (h921.trans rfl)

/-- C9: read with `CFG_ROM` defined or not and with a 460800 and a 921600
divider defined by someone else or not (`d460`, `d921`), the header makes
`UART_CHAR_DURATION` 11 when `UART_BAUDRATE == UART_BAUDRATE_921K6` holds as
the `#if` evaluates it, an identifier that nobody defined counting as 0, and
`(UART_BAUDRATE * 22)` otherwise, in every such configuration; in C code the
character duration is then 11, or the value of `UART_BAUDRATE` times 22 in C
arithmetic.  Without `CFG_ROM`, the 921600 divider being undefined or not 9,
`UART_BAUDRATE` is the divider 9 for 115200 bits/s, one of the three dividers
of the header, and the character duration is 198. -/
theorem C9_char_duration (sw hw : Nat) (cfgRom : Bool) (d460 d921 : Option Nat) :
    (ppValue (uart_sps_h sw hw (outside cfgRom d460 d921)) .UART_BAUDRATE =
        (if cfgRom then d460.getD 0 else 9) ∧
      ppValue (uart_sps_h sw hw (outside cfgRom d460 d921)) .UART_BAUDRATE_921K6 =
        d921.getD 0) ∧
    (uart_sps_h sw hw (outside cfgRom d460 d921) .UART_CHAR_DURATION =
      if ppValue (uart_sps_h sw hw (outside cfgRom d460 d921)) .UART_BAUDRATE =
          ppValue (uart_sps_h sw hw (outside cfgRom d460 d921)) .UART_BAUDRATE_921K6
      then some (.lit 11) else some (.times .UART_BAUDRATE 22)) ∧
    (cValue (uart_sps_h sw hw (outside cfgRom d460 d921)) .UART_CHAR_DURATION =
      if ppValue (uart_sps_h sw hw (outside cfgRom d460 d921)) .UART_BAUDRATE =
          ppValue (uart_sps_h sw hw (outside cfgRom d460 d921)) .UART_BAUDRATE_921K6
      then some 11
      else (cValue (uart_sps_h sw hw (outside cfgRom d460 d921)) .UART_BAUDRATE).bind
        (cTimes · 22)) ∧
    (cfgRom = false → d921 ≠ some 9 →
      cValue (uart_sps_h sw hw (outside cfgRom d460 d921)) .UART_BAUDRATE = some 9 ∧
      cValue (uart_sps_h sw hw (outside cfgRom d460 d921)) .UART_BAUDRATE ∈
        [cValue (uart_sps_h sw hw (outside cfgRom d460 d921)) .UART_BAUDRATE_115K2,
         cValue (uart_sps_h sw hw (outside cfgRom d460 d921)) .UART_BAUDRATE_57K6,
         cValue (uart_sps_h sw hw (outside cfgRom d460 d921)) .UART_BAUDRATE_9K6] ∧
      cValue (uart_sps_h sw hw (outside cfgRom d460 d921)) .UART_CHAR_DURATION = some 198) := by
  have hpb := ppValue_baudrate sw hw cfgRom d460 d921
  have hp9 := ppValue_921K6 sw hw cfgRom d460 d921
  have hv := cValue_baudrate sw hw cfgRom d460 d921
  have hb := header_baudrate sw hw cfgRom d460 d921
  have hc := header_char_duration sw hw cfgRom d460 d921
  have h460 := header_untouched sw hw (outside cfgRom d460 d921) .UART_BAUDRATE_460K8 (by simp)
  have h115 := header_115K2 sw hw (outside cfgRom d460 d921)
  -- the character duration in C code, by the branch which the `#if` takes
  have hcv : cValue (uart_sps_h sw hw (outside cfgRom d460 d921)) .UART_CHAR_DURATION =
      if (if cfgRom then d460.getD 0 else 9) = d921.getD 0 then some 11
      else (cValue (uart_sps_h sw hw (outside cfgRom d460 d921)) .UART_BAUDRATE).bind
        (cTimes · 22) := by
    by_cases he : (if cfgRom then d460.getD 0 else 9) = d921.getD 0
    · rw [if_pos he] at hc ⊢
      exact cValue_lit _ _ _ hc
    · rw [if_neg he] at hc ⊢
      rw [hv]
      cases cfgRom
      · rw [if_neg (by decide), Option.some_bind]
        exact cValue_times_name_lit _ _ _ _ _ _ hc hb h115
      · cases d460 with
        | none =>
          rw [if_pos rfl, Option.map_none', Option.none_bind]
          exact cValue_times_name_undefined _ _ _ _ _ hc hb (h460.trans rfl)
        | some d =>
          rw [if_pos rfl, Option.map_some', Option.some_bind]
          exact cValue_times_name_lit _ _ _ _ _ _ hc hb (h460.trans rfl)
  refine ⟨⟨hpb, hp9⟩, ?_, ?_, ?_⟩
  · rw [hpb, hp9]
    exact hc
  · rw [hpb, hp9]
    exact hcv
  · intro hrom h9
    subst hrom
    have h : cValue (uart_sps_h sw hw (outside false d460 d921)) .UART_BAUDRATE = some 9 := by
      simpa using hv
    refine ⟨h, ?_, ?_⟩
    · rw [h, cValue_lit _ _ _ h115]
      simp
    · have hne : ¬ (if false = true then d460.getD 0 else 9) = d921.getD 0 := by
        cases d921 with
        | none => simp
        | some d =>
          intro e
          apply h9
          simp only [Bool.false_eq_true, if_false, Option.getD_some] at e
          rw [e]
      rw [hcv, if_neg hne, h]
      decide

/-- C9 at concrete settings.  Read on its own without `CFG_ROM`, the header
gets the divider 9 and the duration 198; read on its own under `CFG_ROM`, it
compares two identifiers that nobody defined, 0 with 0, and gets 11; met with
the 921600 divider 1 as its `UART_BAUDRATE` it gets 11, with the 460800 divider
2 it gets 44. -/
theorem C9_char_duration_witness :
    (cValue (uart_sps_h 1 0 (outside false none none)) .UART_BAUDRATE = some 9 ∧
      cValue (uart_sps_h 1 0 (outside false none none)) .UART_CHAR_DURATION = some 198) ∧
    uart_sps_h 1 0 (outside true none none) .UART_CHAR_DURATION = some (.lit 11) ∧
    cValue (uart_sps_h 1 0 (outside true (some 1) (some 1))) .UART_CHAR_DURATION = some 11 ∧
    cValue (uart_sps_h 1 0 (outside true (some 2) (some 1))) .UART_CHAR_DURATION = some 44 :=
  ⟨⟨((C9_char_duration 1 0 false none none).2.2.2 rfl (by decide)).1,
    ((C9_char_duration 1 0 false none none).2.2.2 rfl (by decide)).2.2⟩,
   (C9_char_duration 1 0 true none none).2.1.trans (by decide),
   (C9_char_duration 1 0 true (some 1) (some 1)).2.2.1.trans (by decide),
   (C9_char_duration 1 0 true (some 2) (some 1)).2.2.1.trans (by decide)⟩

/-! ## The flow control codec -/

/-- Decoding the image of one data byte delivers that byte and no signal. -/
theorem decodeFrom_encodeByte (swFlow : Bool) (b : Nat) (rest : List Nat) :
    dataBytes (decodeFrom swFlow false (encodeByte swFlow b ++ rest)) =
      b :: dataBytes (decodeFrom swFlow false rest) ∧
    flowSignals (decodeFrom swFlow false (encodeByte swFlow b ++ rest)) =
      flowSignals (decodeFrom swFlow false rest) := by
  cases swFlow
  · simp [encodeByte, decodeFrom, decodeByte, dataBytes, flowSignals]
  · by_cases h1 : b = stuffingByte
    · simp [encodeByte, decodeFrom, decodeByte, dataBytes, flowSignals, h1]
    · by_cases h2 : b = xonByte
      · simp [encodeByte, decodeFrom, decodeByte, dataBytes, flowSignals, h2]
      · by_cases h3 : b = xoffByte
        · simp [encodeByte, decodeFrom, decodeByte, dataBytes, flowSignals, h3]
        · simp [encodeByte, decodeFrom, decodeByte, dataBytes, flowSignals, h1, h2, h3]

theorem encodeByte_lt (swFlow : Bool) (b w : Nat) (hb : b < 2 ^ 8)
    (hw : w ∈ encodeByte swFlow b) : w < 2 ^ 8 := by
  unfold encodeByte at hw
  split at hw
  · simp only [List.mem_cons, List.mem_singleton, List.not_mem_nil, or_false] at hw
    rcases hw with h | h
    · rw [h]; decide
    · rw [h]; exact hb
  · simp only [List.mem_singleton] at hw
    rw [hw]; exact hb

/-- C1: for every sequence `B` of bytes, decoding the encoding of `B` gives
exactly `B`, no wire byte of the encoding is taken for an XON or XOFF signal,
and the encoding consists of bytes again.  This holds with software flow
control selected (bytes stuffed) and without (all bytes literal). -/
theorem C1_decode_encode (swFlow : Bool) (B : List Nat) (hB : ∀ b ∈ B, b < 2 ^ 8) :
    decode swFlow (encode swFlow B) = B ∧
    flowSignals (decodeFrom swFlow false (encode swFlow B)) = [] ∧
    ∀ w ∈ encode swFlow B, w < 2 ^ 8 := by
  induction B with
  | nil => simp [decode, encode, decodeFrom, dataBytes, flowSignals]
  | cons b bs ih =>
    have hbs : ∀ x ∈ bs, x < 2 ^ 8 := fun x hx => hB x (List.mem_cons_of_mem _ hx)
    obtain ⟨ih1, ih2, ih3⟩ := ih hbs
    obtain ⟨e1, e2⟩ := decodeFrom_encodeByte swFlow b (encode swFlow bs)
    refine ⟨?_, ?_, ?_⟩
    · unfold decode at ih1 ⊢
      rw [encode, e1, ih1]
    · rw [encode, e2, ih2]
    · intro w hw
      rw [encode, List.mem_append] at hw
      rcases hw with hw | hw
      · exact encodeByte_lt swFlow b w (hB b (List.mem_cons_self _ _)) hw
      · exact ih3 w hw

/-- C1 on a buffer that holds every reserved byte and both ends of the byte
range. -/
theorem C1_decode_encode_witness :
    (∀ b ∈ [0x39, 0x11, 0x13, 0x00, 0xFF, 0x39, 0x39], b < 2 ^ 8) ∧
    decode true (encode true [0x39, 0x11, 0x13, 0x00, 0xFF, 0x39, 0x39]) =
      [0x39, 0x11, 0x13, 0x00, 0xFF, 0x39, 0x39] ∧
    flowSignals (decodeFrom true false (encode true [0x39, 0x11, 0x13, 0x00, 0xFF, 0x39, 0x39])) =
      [] ∧
    ∀ w ∈ encode true [0x39, 0x11, 0x13, 0x00, 0xFF, 0x39, 0x39], w < 2 ^ 8 :=
  ⟨by decide, C1_decode_encode true [0x39, 0x11, 0x13, 0x00, 0xFF, 0x39, 0x39] (by decide)⟩

/-- C2: under software flow control a data byte `b` goes out as the two bytes
0x39, `b` when it is 0x39, 0x11 or 0x13 and as the single byte `b` otherwise;
the buffer 0x41 0x39 0x11 0x13 0x42 goes out as the eight bytes
0x41 0x39 0x39 0x39 0x11 0x39 0x13 0x42, and those decode to the buffer. -/
theorem C2_encode_byte (b : Nat) :
    encodeByte true b = (if b = 0x39 ∨ b = 0x11 ∨ b = 0x13 then [0x39, b] else [b]) ∧
    encode true [0x41, 0x39, 0x11, 0x13, 0x42] =
      [0x41, 0x39, 0x39, 0x39, 0x11, 0x39, 0x13, 0x42] ∧
    (encode true [0x41, 0x39, 0x11, 0x13, 0x42]).length = 8 ∧
    decode true [0x41, 0x39, 0x39, 0x39, 0x11, 0x39, 0x13, 0x42] =
      [0x41, 0x39, 0x11, 0x13, 0x42] := by
  refine ⟨?_, by decide, by decide, by decide⟩
  have h1 : stuffingByte = 0x39 := by decide
  have h2 : xonByte = 0x11 := by decide
  have h3 : xoffByte = 0x13 := by decide
  simp [encodeByte, h1, h2, h3, or_assoc]

/-! ## The device information strings -/

/-- C10: where `app_wechat.h` defines its strings (server and application both
present), each declared length is the number of bytes of its literal: 11 for
the manufacturer name `Dialog Semi`, 7 for the model number `DA14580`, 8 for
the system ID; and the name and the model number have at most 18 characters. -/
theorem C10_declared_lengths (server app : Nat) (hs : server ≠ 0) (ha : app ≠ 0) :
    ∃ d, app_wechat_h server app = some d ∧
      d.APP_WECHAT_MANUFACTURER_NAME = "Dialog Semi" ∧
      (cStringBytes d.APP_WECHAT_MANUFACTURER_NAME).length = 11 ∧
      d.APP_WECHAT_MANUFACTURER_NAME_LEN = 11 ∧
      d.APP_WECHAT_MODEL_NB_STR = "DA14580" ∧
      (cStringBytes d.APP_WECHAT_MODEL_NB_STR).length = 7 ∧
      d.APP_WECHAT_MODEL_NB_STR_LEN = 7 ∧
      cStringBytes d.APP_WECHAT_SYSTEM_ID = [0x12, 0x34, 0x56, 0xFF, 0xFE, 0x9A, 0xBC, 0xDE] ∧
      (cStringBytes d.APP_WECHAT_SYSTEM_ID).length = 8 ∧
      d.APP_WECHAT_SYSTEM_ID_LEN = 8 ∧
      (cStringBytes d.APP_WECHAT_MANUFACTURER_NAME).length ≤ maxNameChars ∧
      (cStringBytes d.APP_WECHAT_MODEL_NB_STR).length ≤ maxNameChars := by
  refine ⟨_, by simp [app_wechat_h, hs, ha]; rfl, ?_⟩
  decide

/-- C10 with both switches set to 1. -/
theorem C10_declared_lengths_witness :
    (1 : Nat) ≠ 0 ∧
    ∃ d, app_wechat_h 1 1 = some d ∧
      d.APP_WECHAT_MANUFACTURER_NAME = "Dialog Semi" ∧
      (cStringBytes d.APP_WECHAT_MANUFACTURER_NAME).length = 11 ∧
      d.APP_WECHAT_MANUFACTURER_NAME_LEN = 11 ∧
      d.APP_WECHAT_MODEL_NB_STR = "DA14580" ∧
      (cStringBytes d.APP_WECHAT_MODEL_NB_STR).length = 7 ∧
      d.APP_WECHAT_MODEL_NB_STR_LEN = 7 ∧
      cStringBytes d.APP_WECHAT_SYSTEM_ID = [0x12, 0x34, 0x56, 0xFF, 0xFE, 0x9A, 0xBC, 0xDE] ∧
      (cStringBytes d.APP_WECHAT_SYSTEM_ID).length = 8 ∧
      d.APP_WECHAT_SYSTEM_ID_LEN = 8 ∧
      (cStringBytes d.APP_WECHAT_MANUFACTURER_NAME).length ≤ maxNameChars ∧
      (cStringBytes d.APP_WECHAT_MODEL_NB_STR).length ≤ maxNameChars :=
  ⟨by decide, C10_declared_lengths 1 1 (by decide) (by decide)⟩

end SmartLight
